import Mathlib

/-!
Shallow embedding of src/internal/python/py/worker.py.

The worker is a line-delimited JSON snippet-execution process.  The parts
of its behaviour supplied by the Python language itself and by the stdlib
(the semantics of eval and exec on arbitrary snippet text, and json.loads)
are modelled as parameters: a value of type Interp gives, for every snippet
and namespace, the writes the snippet performs on the two output channels
and its final outcome, and a decoder function gives the result of json.loads
on a line.  Everything the worker source itself does (validation, output
capture, exception handling, response assembly, the protocol loop, the
prelude loader) is translated directly from worker.py.

Python exceptions are modelled by PyExc.  The isBase flag is true for
raisables that derive from BaseException but not from Exception (SystemExit,
KeyboardInterrupt, GeneratorExit); an "except Exception" clause catches a
raised exception exactly when isBase is false.
-/

/-- The two output channels of the process: primary (sys.stdout) and
diagnostic (sys.stderr). -/
inductive Chan where
  | out
  | err
deriving DecidableEq

/-- A sequence of writes performed on the two channels, in order. -/
abbrev Writes := List (Chan × String)

/-- Concatenation of a list of strings, in order. -/
def concatTexts : List String → String
  | [] => ""
  | s :: rest => s ++ concatTexts rest

/-- Text accumulated on the primary channel by a sequence of writes:
what a StringIO buffer receiving the redirected stdout holds. -/
def outText (ws : Writes) : String :=
  concatTexts (ws.filterMap fun w => if w.1 = Chan.out then some w.2 else none)

/-- Text accumulated on the diagnostic channel by a sequence of writes. -/
def errText (ws : Writes) : String :=
  concatTexts (ws.filterMap fun w => if w.1 = Chan.err then some w.2 else none)

/-- A Python exception: its str() form, its traceback.format_exc() form, and
whether it is outside the Exception branch of the hierarchy (isBase = true
for SystemExit / KeyboardInterrupt style raisables, which an
"except Exception" clause does not catch). -/
structure PyExc where
  msg : String
  trace : String
  isBase : Bool
deriving DecidableEq

/-- Formatted traceback text for an exception raised by the worker source
itself, abstracting the file/line detail of the real format. -/
def mkTrace (excName msg : String) : String :=
  "Traceback (most recent call last):\n" ++ excName ++ ": " ++ msg ++ "\n"

/-- ValueError raised by worker validation. -/
def valError (m : String) : PyExc := ⟨m, mkTrace "ValueError" m, false⟩

/-- TypeError raised by worker validation. -/
def typError (m : String) : PyExc := ⟨m, mkTrace "TypeError" m, false⟩

/-- Python runtime values, as far as the worker inspects them: the worker
only ever asks whether a value is None and takes str() of it. -/
inductive Value where
  | vnone
  | vstr (s : String)
  | vint (n : Int)
  | builtinsObj
deriving DecidableEq

/-- Python str() on the modelled values. -/
def Value.toStr : Value → String
  | Value.vnone => "None"
  | Value.vstr s => s
  | Value.vint n => toString n
  | Value.builtinsObj => "<module builtins>"

/-- A namespace: mapping from identifier to value, first binding wins on
lookup (matching dict semantics after the updates performed in the source). -/
abbrev NS := List (String × Value)

/-- Decoded JSON values, the result type of json.loads. -/
inductive JValue where
  | jnull
  | jbool (b : Bool)
  | jnum (n : Int)
  | jstr (s : String)
  | jarr (xs : List JValue)
  | jobj (fs : List (String × JValue))

/-- Python type name of a decoded JSON value. -/
def JValue.pyTypeName : JValue → String
  | JValue.jnull => "NoneType"
  | JValue.jbool _ => "bool"
  | JValue.jnum _ => "int"
  | JValue.jstr _ => "str"
  | JValue.jarr _ => "list"
  | JValue.jobj _ => "dict"

/-- Whether a decoded JSON value is an object (a Python dict). -/
def JValue.isObj : JValue → Bool
  | JValue.jobj _ => true
  | _ => false

/-- The AttributeError raised by req.get(...) when req is not a dict. -/
def attrError (v : JValue) : PyExc :=
  let m := "\x27" ++ v.pyTypeName ++ "\x27 object has no attribute \x27get\x27"
  ⟨m, mkTrace "AttributeError" m, false⟩

/-- req.get(key): on a dict, the value at key or None when absent; on any
other value, raises AttributeError (worker.py lines 77 and 78). -/
def jget (v : JValue) (key : String) : Except PyExc JValue :=
  match v with
  | JValue.jobj fs => Except.ok ((fs.lookup key).getD JValue.jnull)
  | _ => Except.error (attrError v)

/-- kind == "stmt" (the expression-mode tag in the source). -/
def isStmtTag : JValue → Bool
  | JValue.jstr s => s == "stmt"
  | _ => false

/-- kind == "block" (the statement-mode tag in the source). -/
def isBlockTag : JValue → Bool
  | JValue.jstr s => s == "block"
  | _ => false

/-- kind in ("stmt", "block") (worker.py line 80). -/
def isKindTag (v : JValue) : Bool := isStmtTag v || isBlockTag v

/-- The Python interpreter viewed from the worker: for a snippet and the
globals mapping it receives, eval yields the channel writes the snippet
performs and either a value or a raised exception; exec yields the writes
and either the mutated namespace or a raised exception.  The writes listed
are those performed before the snippet finished or raised. -/
structure Interp where
  evalE : String → NS → Writes × Except PyExc Value
  execS : String → NS → Writes × Except PyExc NS

/-- globs built by run_stmt / run_block (worker.py lines 42 and 58):
a dict holding __builtins__, updated with the prelude bindings.  First
binding wins on lookup, so prelude entries shadow the builtins entry. -/
def mkGlobals (prelude : NS) : NS :=
  prelude ++ [("__builtins__", Value.builtinsObj)]

/-- run_stmt (worker.py lines 34 to 46): evaluate the snippet as one
expression against a fresh globals mapping; the result is the empty string
when the value is None, otherwise its str() form.  Channel writes the
expression performs pass through to the caller (run_stmt installs no
redirection of its own). -/
def run_stmt (I : Interp) (prelude : NS) (code : String) : Writes × Except PyExc String :=
  let r := I.evalE code (mkGlobals prelude)
  (r.1, Except.map (fun v => if v = Value.vnone then "" else v.toStr) r.2)

/-- run_block (worker.py lines 49 to 69): execute the snippet as statements
against a fresh globals mapping, with both channels redirected into two
buffers local to run_block.  On success the two buffer texts are returned;
on an exception the exception propagates and the local buffers (holding any
partial output) are lost.  In both cases no write reaches the caller. -/
def run_block (I : Interp) (prelude : NS) (code : String) :
    Writes × Except PyExc (String × String) :=
  let r := I.execS code (mkGlobals prelude)
  ([], Except.map (fun _ => (outText r.1, errText r.1)) r.2)

/-- A response record: exactly one of the two shapes of the wire protocol. -/
inductive Resp where
  | success (out stdout stderr : String)
  | failure (err stdout stderr : String)
deriving DecidableEq

/-- The ok field of a response. -/
def Resp.ok : Resp → Bool
  | Resp.success _ _ _ => true
  | Resp.failure _ _ _ => false

/-- The stdout field of a response. -/
def Resp.stdoutF : Resp → String
  | Resp.success _ s _ => s
  | Resp.failure _ s _ => s

/-- The except-Exception clause of handle_request (worker.py lines 107 to
115) given the content of its two buffers at the point of the raise: a
catchable exception becomes a failure response whose stderr is the buffer
text with the formatted traceback appended; an exception outside the
Exception branch (isBase) is not caught and propagates. -/
def catchExc (e : PyExc) (bufOut bufErr : String) : Except PyExc Resp :=
  if e.isBase then Except.error e
  else Except.ok (Resp.failure e.msg bufOut (bufErr ++ e.trace))

/-- The stmt branch of handle_request (worker.py lines 85 to 94): run_stmt
under redirection into the handler buffers; on success the response carries
the eval result as out and the captured channel texts; on a catchable raise
the except clause sees the buffers holding the partial captured output. -/
def stmtPath (I : Interp) (prelude : NS) (c : String) : Except PyExc Resp :=
  match run_stmt I prelude c with
  | (ws, Except.ok out) => Except.ok (Resp.success out (outText ws) (errText ws))
  | (ws, Except.error e) => catchExc e (outText ws) (errText ws)

/-- The block branch of handle_request (worker.py lines 96 to 105): the
captured primary text becomes out, stdout is deliberately left empty, the
captured diagnostic text becomes stderr.  On a raise the handler buffers are
empty: run_block captured into its own local buffers, which are lost. -/
def blockPath (I : Interp) (prelude : NS) (c : String) : Except PyExc Resp :=
  match (run_block I prelude c).2 with
  | Except.ok p => Except.ok (Resp.success p.1 "" p.2)
  | Except.error e => catchExc e "" ""

/-- handle_request (worker.py lines 72 to 115).  The result is ok resp when
the function returns a response, and error e when an uncatchable exception
escapes it. -/
def handle_request (I : Interp) (prelude : NS) (req : JValue) : Except PyExc Resp :=
  match jget req "kind" with
  | Except.error e => catchExc e "" ""
  | Except.ok kind =>
    match jget req "code" with
    | Except.error e => catchExc e "" ""
    | Except.ok code =>
      if isKindTag kind then
        match code with
        | JValue.jstr c =>
          if isStmtTag kind then stmtPath I prelude c else blockPath I prelude c
        | _ => catchExc (typError "code must be a string") "" ""
      else
        catchExc (valError "kind must be \x27stmt\x27 or \x27block\x27") "" ""

/-- A convenience constructor for a well-formed request object. -/
def mkReq (kind c : String) : JValue :=
  JValue.jobj [("kind", JValue.jstr kind), ("code", JValue.jstr c)]

/-! ### Protocol loop (worker.py main, lines 132 to 152) -/

/-- The Python no-argument str.strip() whitespace set, restricted to the
ASCII characters it strips; the unicode whitespace Python also strips is
immaterial to the claims. -/
def isPyWhitespace (c : Char) : Bool :=
  c == ' ' || c == '\t' || c == '\n' || c == '\r' || c == '\x0b' || c == '\x0c'

/-- raw.strip() applied to an input line. -/
def pyStrip (s : String) : String :=
  String.mk (((s.toList.dropWhile isPyWhitespace).reverse.dropWhile isPyWhitespace).reverse)

/-- A json.loads decode failure: its str() form and its formatted traceback. -/
structure JsonErr where
  msg : String
  trace : String
deriving DecidableEq

/-- The response synthesized for a line that fails to decode
(worker.py lines 140 to 145). -/
def jsonErrResp (e : JsonErr) : Resp :=
  Resp.failure ("invalid JSON request: " ++ e.msg) "" e.trace

/-- A decoder: the behaviour of json.loads on a (stripped) line. -/
abbrev Decoder := String → Except JsonErr JValue

/-- The protocol loop of main over a list of input lines.  Returns the
responses written, in order, and the exception that escaped the loop when
one did: a blank stripped line is skipped; a decode failure produces the
synthetic error response and the loop continues; a decoded request is given
to handle_request, whose call sits outside any try, so an exception escaping
handle_request terminates the loop with the remaining lines unprocessed. -/
def runLines (I : Interp) (dec : Decoder) (prelude : NS) :
    List String → List Resp × Option PyExc
  | [] => ([], none)
  | raw :: rest =>
    if pyStrip raw = "" then runLines I dec prelude rest
    else
      match dec (pyStrip raw) with
      | Except.error e =>
        let r := runLines I dec prelude rest
        (jsonErrResp e :: r.1, r.2)
      | Except.ok req =>
        match handle_request I prelude req with
        | Except.error exc => ([], some exc)
        | Except.ok resp =>
          let r := runLines I dec prelude rest
          (resp :: r.1, r.2)

/-! ### Prelude loader (worker.py load_prelude, lines 13 to 32, and the
startup code of main, lines 118 to 129) -/

/-- The environment load_prelude and the startup code observe: the value of
JAPAYA_PY_DIR, whether dir/__init__.py is a file, whether
spec_from_file_location yields a usable spec and loader, the exception
exec_module raises when it fails, and the top-level bindings vars(mod) holds
after a successful execution. -/
structure PrelSrc where
  pyDirEnv : String
  initPath : String
  hasInitFile : Bool
  specOk : Bool
  execErr : Option PyExc
  modVars : List (String × Value)

/-- Python str.startswith: the argument is a character-list prefix of the
receiver.  (String.startsWith of the core library is extensionally the
same; this form reduces structurally.) -/
def pyStartsWith (s p : String) : Bool :=
  p.toList.isPrefixOf s.toList

/-- The public bindings of a module: every top-level identifier not starting
with an underscore, with its value (worker.py lines 27 to 31). -/
def publicVars (l : List (String × Value)) : List (String × Value) :=
  l.filter fun p => !(pyStartsWith p.1 "_")

/-- load_prelude (worker.py lines 13 to 32): empty mapping when no
__init__.py file exists; RuntimeError when the spec cannot be built; the
exec_module exception when execution fails; otherwise the public bindings. -/
def load_prelude (src : PrelSrc) : Except PyExc NS :=
  if !src.hasInitFile then Except.ok []
  else if !src.specOk then
    Except.error ⟨"failed to load prelude from " ++ src.initPath,
      mkTrace "RuntimeError" ("failed to load prelude from " ++ src.initPath), false⟩
  else
    match src.execErr with
    | some e => Except.error e
    | none => Except.ok (publicVars src.modVars)

/-- The startup code of main (worker.py lines 121 to 129): PRELUDE stays
empty when the stripped environment variable is empty; otherwise
load_prelude runs, and a failure is re-raised (fatal to startup). -/
def startupPrelude (src : PrelSrc) : Except PyExc NS :=
  if pyStrip src.pyDirEnv = "" then Except.ok []
  else load_prelude src

/-! ### Output capture mechanism (redirect_stdout / redirect_stderr with two
StringIO buffers, worker.py lines 61 to 69 and 85 to 94) -/

/-- The process stream state: which stream object each channel is currently
bound to, an allocation counter for fresh StringIO objects, and the text
each stream holds. -/
structure Sys where
  outBinding : Nat
  errBinding : Nat
  nextFree : Nat
  streams : Nat → String

/-- Append text to one stream. -/
def updStream (f : Nat → String) (i : Nat) (s : String) : Nat → String :=
  fun j => if j = i then f i ++ s else f j

/-- One write through the current binding of a channel. -/
def writeChan (sys : Sys) (w : Chan × String) : Sys :=
  match w.1 with
  | Chan.out => { sys with streams := updStream sys.streams sys.outBinding w.2 }
  | Chan.err => { sys with streams := updStream sys.streams sys.errBinding w.2 }

/-- All writes of an operation, performed in order through the current
bindings. -/
def applyWrites (sys : Sys) (ws : Writes) : Sys :=
  ws.foldl writeChan sys

/-- The capture scope: allocate two fresh empty buffers, rebind both
channels to them, run the operation (performing its writes through the
current bindings), and restore the original bindings on every exit path,
whether the operation finished normally or raised.  Returns the resulting
stream state, the two buffer texts, and the operation outcome passed
through unchanged. -/
def redirectBoth {α : Type} (sys : Sys) (op : Writes × Except PyExc α) :
    Sys × (String × String × Except PyExc α) :=
  let ob := sys.nextFree
  let eb := sys.nextFree + 1
  let start : Sys :=
    ⟨ob, eb, sys.nextFree + 2,
      fun j => if j = ob then "" else if j = eb then "" else sys.streams j⟩
  let inner := applyWrites start op.1
  (⟨sys.outBinding, sys.errBinding, sys.nextFree + 2, inner.streams⟩,
    (inner.streams ob, inner.streams eb, op.2))

/-! ### Concrete instances used by witnesses and counterexamples -/

/-- An interpreter on which every snippet evaluates to None and every
statement block runs without effect. -/
def idleInterp : Interp :=
  ⟨fun _ _ => ([], Except.ok Value.vnone), fun _ ns => ([], Except.ok ns)⟩

/-- SystemExit raised from within a snippet: not an Exception subclass. -/
def sysExitExc : PyExc := ⟨"0", mkTrace "SystemExit" "0", true⟩

/-- RuntimeError raised from within a snippet. -/
def boomExc : PyExc := ⟨"boom", mkTrace "RuntimeError" "boom", false⟩

/-- ZeroDivisionError raised while evaluating 1/0. -/
def zeroDivExc : PyExc :=
  ⟨"division by zero", mkTrace "ZeroDivisionError" "division by zero", false⟩

/-- A concrete interpreter behaviour for a handful of snippets, used to
instantiate the universally quantified theorems on explicit inputs. -/
def demoInterp : Interp where
  evalE := fun c _ =>
    if c = "\"int x = 3;\"" then ([], Except.ok (Value.vstr "int x = 3;"))
    else if c = "None" then ([], Except.ok Value.vnone)
    else if c = "1/0" then ([], Except.error zeroDivExc)
    else ([], Except.ok Value.vnone)
  execS := fun c ns =>
    if c = "printab" then ([(Chan.out, "a\n"), (Chan.out, "b\n")], Except.ok ns)
    else if c = "boom" then ([(Chan.out, "a\n")], Except.error boomExc)
    else if c = "exitnow" then ([], Except.error sysExitExc)
    else ([], Except.ok ns)

/-- A concrete decoder behaviour, mapping a few fixed lines to decoded
requests and everything else to a decode failure. -/
def demoDec : Decoder := fun s =>
  if s = "EXITREQ" then Except.ok (mkReq "block" "exitnow")
  else if s = "GOODREQ" then Except.ok (mkReq "block" "printab")
  else if s = "ARRREQ" then Except.ok (JValue.jarr [])
  else Except.error ⟨"Expecting value: line 1 column 1 (char 0)",
    mkTrace "json.decoder.JSONDecodeError" "Expecting value: line 1 column 1 (char 0)"⟩


/-- The same interpreter with the final namespace produced by exec erased:
used to state that the worker never consumes the mutated namespace. -/
def eraseExecNs (I : Interp) : Interp :=
  { I with execS := fun c ns =>
      let r := I.execS c ns
      (r.1, r.2.map fun _ => ([] : NS)) }

/-- An interpreter whose snippets only ever raise exceptions in the
catchable Exception category (no SystemExit / KeyboardInterrupt). -/
def catchableInterp (I : Interp) : Prop :=
  (∀ c ns e, (I.evalE c ns).2 = Except.error e → e.isBase = false)
  ∧ (∀ c ns e, (I.execS c ns).2 = Except.error e → e.isBase = false)

/-- A concrete stream state: the two real channels, both allocated. -/
def sys0 : Sys := ⟨0, 1, 2, fun _ => "live"⟩

/-- A concrete operation that writes on both channels and then raises. -/
def op0 : Writes × Except PyExc Unit :=
  ([(Chan.out, "x"), (Chan.err, "y")], Except.error boomExc)

/-- A concrete prelude unit with one public and one private binding. -/
def src7 : PrelSrc :=
  ⟨"pydir", "pydir/__init__.py", true, true, none,
    [("package_name", Value.vstr "com.example"), ("_secret", Value.vstr "nope")]⟩

/-- A concrete startup environment with a whitespace-only directory value. -/
def srcUnset : PrelSrc := ⟨"  ", "", false, false, none, []⟩

/-! ### Helper lemmas -/

theorem outText_nil : outText [] = "" := rfl

theorem errText_nil : errText [] = "" := rfl

theorem outText_cons_out (s : String) (ws : Writes) :
    outText ((Chan.out, s) :: ws) = s ++ outText ws := rfl

theorem outText_cons_err (s : String) (ws : Writes) :
    outText ((Chan.err, s) :: ws) = outText ws := rfl

theorem errText_cons_out (s : String) (ws : Writes) :
    errText ((Chan.out, s) :: ws) = errText ws := rfl

theorem errText_cons_err (s : String) (ws : Writes) :
    errText ((Chan.err, s) :: ws) = s ++ errText ws := rfl

theorem catchExc_ok (e : PyExc) (a b : String) (h : e.isBase = false) :
    catchExc e a b = Except.ok (Resp.failure e.msg a (b ++ e.trace)) := by
  simp [catchExc, h]

theorem applyWrites_outBinding (ws : Writes) :
    ∀ st : Sys, (applyWrites st ws).outBinding = st.outBinding := by
  induction ws with
  | nil => intro st; rfl
  | cons w rest ih =>
    intro st
    obtain ⟨c, s⟩ := w
    have h := ih (writeChan st (c, s))
    cases c <;> exact h

theorem applyWrites_errBinding (ws : Writes) :
    ∀ st : Sys, (applyWrites st ws).errBinding = st.errBinding := by
  induction ws with
  | nil => intro st; rfl
  | cons w rest ih =>
    intro st
    obtain ⟨c, s⟩ := w
    have h := ih (writeChan st (c, s))
    cases c <;> exact h

theorem applyWrites_streams_other (ws : Writes) :
    ∀ st : Sys, ∀ j, j ≠ st.outBinding → j ≠ st.errBinding →
      (applyWrites st ws).streams j = st.streams j := by
  induction ws with
  | nil => intro st j _ _; rfl
  | cons w rest ih =>
    intro st j h1 h2
    obtain ⟨c, s⟩ := w
    cases c with
    | out =>
      have h := ih (writeChan st (Chan.out, s)) j h1 h2
      refine h.trans ?_
      show updStream st.streams st.outBinding s j = st.streams j
      simp [updStream, h1]
    | err =>
      have h := ih (writeChan st (Chan.err, s)) j h1 h2
      refine h.trans ?_
      show updStream st.streams st.errBinding s j = st.streams j
      simp [updStream, h2]

theorem applyWrites_streams_out (ws : Writes) :
    ∀ st : Sys, st.outBinding ≠ st.errBinding →
      (applyWrites st ws).streams st.outBinding = st.streams st.outBinding ++ outText ws := by
  induction ws with
  | nil =>
    intro st _
    rw [outText_nil, String.append_empty]
    rfl
  | cons w rest ih =>
    intro st hne
    obtain ⟨c, s⟩ := w
    cases c with
    | out =>
      have h := ih (writeChan st (Chan.out, s)) hne
      rw [outText_cons_out, ← String.append_assoc]
      refine h.trans ?_
      show updStream st.streams st.outBinding s st.outBinding ++ outText rest = _
      simp [updStream]
    | err =>
      have h := ih (writeChan st (Chan.err, s)) hne
      rw [outText_cons_err]
      refine h.trans ?_
      show updStream st.streams st.errBinding s st.outBinding ++ outText rest = _
      simp [updStream, hne]

theorem applyWrites_streams_err (ws : Writes) :
    ∀ st : Sys, st.outBinding ≠ st.errBinding →
      (applyWrites st ws).streams st.errBinding = st.streams st.errBinding ++ errText ws := by
  induction ws with
  | nil =>
    intro st _
    rw [errText_nil, String.append_empty]
    rfl
  | cons w rest ih =>
    intro st hne
    obtain ⟨c, s⟩ := w
    cases c with
    | out =>
      have h := ih (writeChan st (Chan.out, s)) hne
      rw [errText_cons_out]
      refine h.trans ?_
      show updStream st.streams st.outBinding s st.errBinding ++ errText rest = _
      have : st.errBinding ≠ st.outBinding := fun hx => hne hx.symm
      simp [updStream, this]
    | err =>
      have h := ih (writeChan st (Chan.err, s)) hne
      rw [errText_cons_err, ← String.append_assoc]
      refine h.trans ?_
      show updStream st.streams st.errBinding s st.errBinding ++ errText rest = _
      simp [updStream]

/-! ### Claim C9: the output-capture scope -/

/-- Claim C9: for every operation run under the output-capture scope, all
writes the operation performs to the primary and diagnostic channels land in
two private buffers while every pre-existing stream, the real output
channels included, is untouched; on any exit from the operation, normal
return or raised failure alike, the original channel bindings are restored,
and the two buffer texts together with the operation outcome are available
to the caller. -/
theorem output_capture_scope {α : Type} (sys : Sys) (op : Writes × Except PyExc α) :
    ((redirectBoth sys op).1.outBinding = sys.outBinding
      ∧ (redirectBoth sys op).1.errBinding = sys.errBinding)
    ∧ (∀ i, i < sys.nextFree → (redirectBoth sys op).1.streams i = sys.streams i)
    ∧ (redirectBoth sys op).2.1 = outText op.1
    ∧ (redirectBoth sys op).2.2.1 = errText op.1
    ∧ (redirectBoth sys op).2.2.2 = op.2 := by
  have hne : sys.nextFree ≠ sys.nextFree + 1 := by omega
  refine ⟨⟨rfl, rfl⟩, ?_, ?_, ?_, rfl⟩
  · intro i hi
    have h1 : i ≠ sys.nextFree := by omega
    have h2 : i ≠ sys.nextFree + 1 := by omega
    have h := applyWrites_streams_other op.1
      ⟨sys.nextFree, sys.nextFree + 1, sys.nextFree + 2,
        fun j => if j = sys.nextFree then ""
          else if j = sys.nextFree + 1 then "" else sys.streams j⟩ i h1 h2
    refine h.trans ?_
    simp [h1, h2]
  · have h := applyWrites_streams_out op.1
      ⟨sys.nextFree, sys.nextFree + 1, sys.nextFree + 2,
        fun j => if j = sys.nextFree then ""
          else if j = sys.nextFree + 1 then "" else sys.streams j⟩ hne
    refine h.trans ?_
    simp [String.empty_append]
  · have h := applyWrites_streams_err op.1
      ⟨sys.nextFree, sys.nextFree + 1, sys.nextFree + 2,
        fun j => if j = sys.nextFree then ""
          else if j = sys.nextFree + 1 then "" else sys.streams j⟩ hne
    refine h.trans ?_
    simp [String.empty_append, hne]

/-- Witness for C9 at a concrete state and a concrete raising operation. -/
theorem output_capture_scope_witness :
    (redirectBoth sys0 op0).1.outBinding = 0
    ∧ (redirectBoth sys0 op0).1.streams 0 = "live"
    ∧ (redirectBoth sys0 op0).2.1 = "x"
    ∧ (redirectBoth sys0 op0).2.2.1 = "y"
    ∧ (redirectBoth sys0 op0).2.2.2 = Except.error boomExc := by
  refine ⟨(output_capture_scope sys0 op0).1.1,
    ((output_capture_scope sys0 op0).2.1 0 (by decide)).trans rfl,
    ((output_capture_scope sys0 op0).2.2.1).trans (by decide),
    ((output_capture_scope sys0 op0).2.2.2.1).trans (by decide),
    (output_capture_scope sys0 op0).2.2.2.2⟩

/-! ### Claims C2 to C5: the request handler -/

/-- Claim C3 counterexample: a request whose kind is the tag "expression"
does not pass validation and is not executed, even though the interpreter
would evaluate it successfully; the response is the fixed validation
failure.  The recognized wire tags in the code are "stmt" and "block", not
"expression" and "statement". -/
theorem expression_tag_fails_validation :
    handle_request idleInterp [] (mkReq "expression" "1")
      = Except.ok (Resp.failure "kind must be \x27stmt\x27 or \x27block\x27" ""
          (mkTrace "ValueError" "kind must be \x27stmt\x27 or \x27block\x27")) := rfl

/-- Claim C3 (amended): the two recognized kind tags of the wire protocol
are "stmt" (expression mode) and "block" (statement mode): every request
whose kind is outside these two tags yields the fixed validation failure
regardless of the code field, and every request with a recognized tag and
textual code is dispatched to the corresponding execution path. -/
theorem kind_tag_validation (I : Interp) (prelude : NS) (fs : List (String × JValue)) :
    (isKindTag ((fs.lookup "kind").getD JValue.jnull) = false →
      handle_request I prelude (JValue.jobj fs)
        = Except.ok (Resp.failure "kind must be \x27stmt\x27 or \x27block\x27" ""
            (mkTrace "ValueError" "kind must be \x27stmt\x27 or \x27block\x27")))
    ∧ (∀ c, fs.lookup "kind" = some (JValue.jstr "stmt") →
        fs.lookup "code" = some (JValue.jstr c) →
        handle_request I prelude (JValue.jobj fs) = stmtPath I prelude c)
    ∧ (∀ c, fs.lookup "kind" = some (JValue.jstr "block") →
        fs.lookup "code" = some (JValue.jstr c) →
        handle_request I prelude (JValue.jobj fs) = blockPath I prelude c) := by
  refine ⟨?_, ?_, ?_⟩
  · intro hk
    simp [handle_request, jget, hk, catchExc, valError, String.empty_append]
  · intro c hk hc
    simp [handle_request, jget, hk, hc, isKindTag, isStmtTag, isBlockTag]
  · intro c hk hc
    simp [handle_request, jget, hk, hc, isKindTag, isStmtTag, isBlockTag]

/-- Witness for the amended C3 at concrete requests: an unrecognized tag is
rejected with the fixed message, and the tag "block" dispatches to the
statement path. -/
theorem kind_tag_validation_witness :
    handle_request demoInterp []
        (JValue.jobj [("kind", JValue.jstr "bogus"), ("code", JValue.jstr "1")])
      = Except.ok (Resp.failure "kind must be \x27stmt\x27 or \x27block\x27" ""
          (mkTrace "ValueError" "kind must be \x27stmt\x27 or \x27block\x27"))
    ∧ handle_request demoInterp []
        (JValue.jobj [("kind", JValue.jstr "block"), ("code", JValue.jstr "printab")])
      = blockPath demoInterp [] "printab" :=
  ⟨(kind_tag_validation demoInterp []
      [("kind", JValue.jstr "bogus"), ("code", JValue.jstr "1")]).1 rfl,
   (kind_tag_validation demoInterp []
      [("kind", JValue.jstr "block"), ("code", JValue.jstr "printab")]).2.2 "printab" rfl rfl⟩

/-- Claim C4: in expression mode, an expression evaluating to a text value
with no incidental output yields exactly that text as out with empty stdout
and stderr, and an expression evaluating to None yields the empty string as
out, not the text "None". -/
theorem expression_mode_result (I : Interp) (prelude : NS) (c : String) :
    (∀ s, I.evalE c (mkGlobals prelude) = ([], Except.ok (Value.vstr s)) →
      handle_request I prelude (mkReq "stmt" c) = Except.ok (Resp.success s "" ""))
    ∧ (I.evalE c (mkGlobals prelude) = ([], Except.ok Value.vnone) →
      handle_request I prelude (mkReq "stmt" c) = Except.ok (Resp.success "" "" "")) := by
  constructor
  · intro s h
    show stmtPath I prelude c = _
    simp [stmtPath, run_stmt, h, Except.map, Value.toStr, outText, errText, concatTexts]
  · intro h
    show stmtPath I prelude c = _
    simp [stmtPath, run_stmt, h, Except.map, outText, errText, concatTexts]

/-- Witness for C4: the spec scenario with a literal string, and the None
special case. -/
theorem expression_mode_result_witness :
    handle_request demoInterp [] (mkReq "stmt" "\"int x = 3;\"")
      = Except.ok (Resp.success "int x = 3;" "" "")
    ∧ handle_request demoInterp [] (mkReq "stmt" "None")
      = Except.ok (Resp.success "" "" "") :=
  ⟨(expression_mode_result demoInterp [] "\"int x = 3;\"").1 "int x = 3;" rfl,
   (expression_mode_result demoInterp [] "None").2 rfl⟩

/-- Claim C5: in statement mode, a successfully executed request responds
with out equal to the exact primary-channel text written during execution,
stdout left empty, and stderr equal to the diagnostic-channel text captured
during execution, verbatim. -/
theorem statement_mode_output (I : Interp) (prelude : NS) (c : String) (ws : Writes) (ns2 : NS)
    (h : I.execS c (mkGlobals prelude) = (ws, Except.ok ns2)) :
    handle_request I prelude (mkReq "block" c)
      = Except.ok (Resp.success (outText ws) "" (errText ws)) := by
  show blockPath I prelude c = _
  simp [blockPath, run_block, h, Except.map]

/-- Witness for C5: two prints produce out with both lines and embedded
newlines, empty stdout, empty stderr. -/
theorem statement_mode_output_witness :
    handle_request demoInterp [] (mkReq "block" "printab")
      = Except.ok (Resp.success "a\nb\n" "" "") := by
  have h := statement_mode_output demoInterp [] "printab"
    [(Chan.out, "a\n"), (Chan.out, "b\n")] (mkGlobals []) rfl
  exact h.trans rfl

/-- Claim C2 counterexample: a statement-mode request that writes "a\n" to
the primary channel and then raises a catchable failure responds with
stdout equal to the empty string and stderr equal to the trace alone: the
partial output captured before the failure point is discarded, not
preserved as the claim states. -/
theorem block_partial_output_discarded :
    demoInterp.execS "boom" (mkGlobals []) = ([(Chan.out, "a\n")], Except.error boomExc)
    ∧ outText [(Chan.out, "a\n")] = "a\n"
    ∧ handle_request demoInterp [] (mkReq "block" "boom")
        = Except.ok (Resp.failure "boom" "" (mkTrace "RuntimeError" "boom"))
    ∧ ("" : String) ≠ "a\n" := by
  refine ⟨rfl, rfl, rfl, by decide⟩

/-- Claim C2 (amended): for a catchable failure raised during execution, an
expression-mode request preserves the partial output captured before the
failure (stdout is the captured primary text, stderr the captured
diagnostic text with the full trace appended), while a statement-mode
request discards it (stdout is empty and stderr is the trace alone, because
run_block captures into local buffers that are lost when exec raises). -/
theorem failure_report_capture (I : Interp) (prelude : NS) (c : String) (ws : Writes) (e : PyExc)
    (hb : e.isBase = false) :
    (I.evalE c (mkGlobals prelude) = (ws, Except.error e) →
      handle_request I prelude (mkReq "stmt" c)
        = Except.ok (Resp.failure e.msg (outText ws) (errText ws ++ e.trace)))
    ∧ (I.execS c (mkGlobals prelude) = (ws, Except.error e) →
      handle_request I prelude (mkReq "block" c)
        = Except.ok (Resp.failure e.msg "" e.trace)) := by
  constructor
  · intro h
    show stmtPath I prelude c = _
    simp [stmtPath, run_stmt, h, Except.map, catchExc, hb]
  · intro h
    show blockPath I prelude c = _
    simp [blockPath, run_block, h, Except.map, catchExc, hb, String.empty_append]

/-- Witness for the amended C2: the 1/0 expression failure and the
statement-mode boom failure at concrete inputs. -/
theorem failure_report_capture_witness :
    handle_request demoInterp [] (mkReq "stmt" "1/0")
      = Except.ok (Resp.failure zeroDivExc.msg (outText []) (errText [] ++ zeroDivExc.trace))
    ∧ handle_request demoInterp [] (mkReq "block" "boom")
      = Except.ok (Resp.failure boomExc.msg "" boomExc.trace) :=
  ⟨(failure_report_capture demoInterp [] "1/0" [] zeroDivExc rfl).1 rfl,
   (failure_report_capture demoInterp [] "boom" [(Chan.out, "a\n")] boomExc rfl).2 rfl⟩

/-! ### Lookup lemmas for namespaces -/

theorem lookup_append_none {β : Type} {x : String} {l1 l2 : List (String × β)}
    (h : List.lookup x l1 = none) : List.lookup x (l1 ++ l2) = List.lookup x l2 := by
  induction l1 with
  | nil => rfl
  | cons p rest ih =>
    obtain ⟨k, v⟩ := p
    cases hx : (x == k) with
    | true => simp [List.lookup, hx] at h
    | false =>
      simp only [List.lookup, List.cons_append, hx] at h ⊢
      exact ih h

theorem lookup_append_some {β : Type} {x : String} {l1 l2 : List (String × β)} {v : β}
    (h : List.lookup x l1 = some v) : List.lookup x (l1 ++ l2) = some v := by
  induction l1 with
  | nil => simp [List.lookup] at h
  | cons p rest ih =>
    obtain ⟨k, w⟩ := p
    cases hx : (x == k) with
    | true => simp only [List.lookup, List.cons_append, hx] at h ⊢; exact h
    | false =>
      simp only [List.lookup, List.cons_append, hx] at h ⊢
      exact ih h

theorem lookup_singleton_none {β : Type} {x k : String} {v : β} (h : (x == k) = false) :
    List.lookup x [(k, v)] = none := by
  simp only [List.lookup, h]

theorem publicVars_lookup_none (x : String) (hx : pyStartsWith x "_" = true) :
    ∀ l : List (String × Value), List.lookup x (publicVars l) = none := by
  intro l
  induction l with
  | nil => rfl
  | cons p rest ih =>
    obtain ⟨k, v⟩ := p
    by_cases hk : pyStartsWith k "_" = true
    · simpa [publicVars, List.filter_cons, hk] using ih
    · have hxk : (x == k) = false := by
        cases hxe : (x == k) with
        | true =>
          have : x = k := eq_of_beq hxe
          rw [← this] at hk
          exact absurd hx hk
        | false => rfl
      simp only [publicVars, List.filter_cons] at ih ⊢
      simp only [hk] at ih ⊢
      simp only [Bool.not_false, if_true, List.lookup, hxk]
      exact ih

/-! ### Claim C6: fresh namespace per request -/

theorem stmtPath_ext (I1 I2 : Interp) (prelude : NS) (c : String)
    (h : I1.evalE c (mkGlobals prelude) = I2.evalE c (mkGlobals prelude)) :
    stmtPath I1 prelude c = stmtPath I2 prelude c := by
  unfold stmtPath run_stmt
  rw [h]

theorem blockPath_ext (I1 I2 : Interp) (prelude : NS) (c : String)
    (h : I1.execS c (mkGlobals prelude) = I2.execS c (mkGlobals prelude)) :
    blockPath I1 prelude c = blockPath I2 prelude c := by
  unfold blockPath run_block
  rw [h]

theorem blockPath_erase (I : Interp) (prelude : NS) (c : String) :
    blockPath (eraseExecNs I) prelude c = blockPath I prelude c := by
  unfold blockPath run_block eraseExecNs
  cases hx : I.execS c (mkGlobals prelude) with
  | mk ws r => cases r <;> simp [hx, Except.map]

theorem handle_request_paths (I1 I2 : Interp) (prelude : NS)
    (hs : ∀ c, stmtPath I1 prelude c = stmtPath I2 prelude c)
    (hb : ∀ c, blockPath I1 prelude c = blockPath I2 prelude c) (req : JValue) :
    handle_request I1 prelude req = handle_request I2 prelude req := by
  unfold handle_request
  cases hk : jget req "kind" with
  | error e => rfl
  | ok kind =>
    cases hc : jget req "code" with
    | error e => rfl
    | ok code =>
      cases ht : isKindTag kind with
      | false => simp [ht]
      | true =>
        cases code with
        | jstr c =>
          cases hst : isStmtTag kind with
          | true => simp [ht, hst, hs c]
          | false => simp [ht, hst, hb c]
        | jnull => rfl
        | jbool b => rfl
        | jnum n => rfl
        | jarr xs => rfl
        | jobj fs => rfl

/-- Claim C6: no mutation performed by one request is visible to a later
one.  The handler consults the interpreter only at the fresh namespace
mkGlobals prelude, built from the prelude bindings and the builtin
environment (so its behaviour is fixed by the snippet semantics at that
namespace alone); the namespace mutated by exec is discarded, never
consumed; and any identifier outside the prelude and distinct from the
builtins binding is unbound in the fresh namespace of every request, so a
binding assigned by an earlier request does not resolve later. -/
theorem fresh_namespace_isolation (I : Interp) (prelude : NS) :
    (∀ I2 : Interp,
      (∀ c, I2.evalE c (mkGlobals prelude) = I.evalE c (mkGlobals prelude)) →
      (∀ c, I2.execS c (mkGlobals prelude) = I.execS c (mkGlobals prelude)) →
      ∀ req, handle_request I2 prelude req = handle_request I prelude req)
    ∧ (∀ req, handle_request (eraseExecNs I) prelude req = handle_request I prelude req)
    ∧ (∀ x, List.lookup x prelude = none → (x == "__builtins__") = false →
        List.lookup x (mkGlobals prelude) = none) := by
  refine ⟨?_, ?_, ?_⟩
  · intro I2 he hx req
    exact handle_request_paths I2 I prelude
      (fun c => stmtPath_ext I2 I prelude c (he c))
      (fun c => blockPath_ext I2 I prelude c (hx c)) req
  · intro req
    exact handle_request_paths (eraseExecNs I) I prelude (fun c => rfl)
      (fun c => blockPath_erase I prelude c) req
  · intro x h1 h2
    exact (lookup_append_none h1).trans (lookup_singleton_none h2)

/-- Witness for C6: the erased-namespace interpreter answers a concrete
request identically, and a concrete identifier assigned by a snippet is
unbound in the fresh namespace of the next request. -/
theorem fresh_namespace_isolation_witness :
    handle_request (eraseExecNs demoInterp) [] (mkReq "block" "printab")
      = handle_request demoInterp [] (mkReq "block" "printab")
    ∧ List.lookup "x" (mkGlobals []) = none :=
  ⟨(fresh_namespace_isolation demoInterp []).2.1 (mkReq "block" "printab"),
   (fresh_namespace_isolation demoInterp []).2.2 "x" rfl rfl⟩

/-! ### Claim C7: the prelude loader -/

/-- Claim C7: the prelude loader returns an empty mapping, without error,
when the configured directory is unset (stripped-empty environment value)
or holds no __init__.py unit; when a unit loads and executes, exactly the
top-level identifiers not starting with an underscore are copied into the
resulting mapping, the underscore-prefixed ones are excluded, a public
binding resolves in the fresh namespace every request uses (both modes
build it with mkGlobals), and an underscore-prefixed one does not resolve. -/
theorem prelude_loader_contract (src : PrelSrc) :
    (pyStrip src.pyDirEnv = "" → startupPrelude src = Except.ok [])
    ∧ (src.hasInitFile = false → load_prelude src = Except.ok [])
    ∧ (src.hasInitFile = true → src.specOk = true → src.execErr = none →
        load_prelude src = Except.ok (publicVars src.modVars)
        ∧ (∀ x v, ((x, v) ∈ publicVars src.modVars
            ↔ ((x, v) ∈ src.modVars ∧ pyStartsWith x "_" = false)))
        ∧ (∀ x v, List.lookup x (publicVars src.modVars) = some v →
            List.lookup x (mkGlobals (publicVars src.modVars)) = some v)
        ∧ (∀ x, pyStartsWith x "_" = true → (x == "__builtins__") = false →
            List.lookup x (mkGlobals (publicVars src.modVars)) = none)) := by
  refine ⟨?_, ?_, ?_⟩
  · intro h
    simp [startupPrelude, h]
  · intro h
    simp [load_prelude, h]
  · intro h1 h2 h3
    refine ⟨by simp [load_prelude, h1, h2, h3], ?_, ?_, ?_⟩
    · intro x v
      simp [publicVars, List.mem_filter]
    · intro x v h
      exact lookup_append_some h
    · intro x hx hb
      exact (lookup_append_none (publicVars_lookup_none x hx src.modVars)).trans
        (lookup_singleton_none hb)

/-- Witness for C7 at concrete inputs: unset directory gives the empty
mapping; the concrete unit exports exactly its public binding, which
resolves in the fresh namespace, while the private one does not. -/
theorem prelude_loader_contract_witness :
    startupPrelude srcUnset = Except.ok []
    ∧ load_prelude src7 = Except.ok (publicVars src7.modVars)
    ∧ List.lookup "package_name" (mkGlobals (publicVars src7.modVars))
        = some (Value.vstr "com.example")
    ∧ List.lookup "_secret" (mkGlobals (publicVars src7.modVars)) = none :=
  ⟨(prelude_loader_contract srcUnset).1 rfl,
   ((prelude_loader_contract src7).2.2 rfl rfl rfl).1,
   ((prelude_loader_contract src7).2.2 rfl rfl rfl).2.2.1 "package_name"
     (Value.vstr "com.example") (by decide),
   ((prelude_loader_contract src7).2.2 rfl rfl rfl).2.2.2 "_secret" (by decide) (by decide)⟩

/-! ### Claim C10: non-object JSON lines -/

/-- Claim C10: an input line that decodes as valid JSON but not as an
object still yields exactly one failure response with ok false: the
AttributeError raised when the handler calls get on the non-mapping value
is caught inside handle_request, and the loop goes on to process the next
line. -/
theorem non_object_request (I : Interp) (prelude : NS) (v : JValue) (hv : v.isObj = false) :
    (handle_request I prelude v
      = Except.ok (Resp.failure (attrError v).msg "" (attrError v).trace)
      ∧ (Resp.failure (attrError v).msg "" (attrError v).trace).ok = false)
    ∧ ∀ (dec : Decoder) (raw : String) (rest : List String),
        pyStrip raw ≠ "" → dec (pyStrip raw) = Except.ok v →
        runLines I dec prelude (raw :: rest)
          = (Resp.failure (attrError v).msg "" (attrError v).trace
              :: (runLines I dec prelude rest).1,
             (runLines I dec prelude rest).2) := by
  have hh : handle_request I prelude v
      = Except.ok (Resp.failure (attrError v).msg "" (attrError v).trace) := by
    cases v with
    | jobj fs => simp [JValue.isObj] at hv
    | jnull => exact (catchExc_ok _ "" "" rfl).trans (by rw [String.empty_append])
    | jbool b => exact (catchExc_ok _ "" "" rfl).trans (by rw [String.empty_append])
    | jnum n => exact (catchExc_ok _ "" "" rfl).trans (by rw [String.empty_append])
    | jstr s => exact (catchExc_ok _ "" "" rfl).trans (by rw [String.empty_append])
    | jarr xs => exact (catchExc_ok _ "" "" rfl).trans (by rw [String.empty_append])
  refine ⟨⟨hh, rfl⟩, ?_⟩
  intro dec raw rest h1 h2
  simp [runLines, h1, h2, hh]

/-- Witness for C10: a JSON array line produces one failure response and
the next line is still processed. -/
theorem non_object_request_witness :
    handle_request demoInterp [] (JValue.jarr [])
      = Except.ok (Resp.failure (attrError (JValue.jarr [])).msg ""
          (attrError (JValue.jarr [])).trace)
    ∧ runLines demoInterp demoDec [] ["ARRREQ", "GOODREQ"]
      = (Resp.failure (attrError (JValue.jarr [])).msg "" (attrError (JValue.jarr [])).trace
          :: (runLines demoInterp demoDec [] ["GOODREQ"]).1,
         (runLines demoInterp demoDec [] ["GOODREQ"]).2) :=
  ⟨((non_object_request demoInterp [] (JValue.jarr []) rfl).1).1,
   (non_object_request demoInterp [] (JValue.jarr []) rfl).2 demoDec "ARRREQ" ["GOODREQ"]
     (by decide) rfl⟩

/-! ### Claims C1 and C8: the protocol loop -/

theorem jget_error_isBase (v : JValue) (k : String) (e : PyExc)
    (h : jget v k = Except.error e) : e.isBase = false := by
  cases v <;> simp [jget] at h <;> (subst h; rfl)

theorem stmtPath_ok (I : Interp) (prelude : NS) (hc : catchableInterp I) (c : String) :
    ∃ r, stmtPath I prelude c = Except.ok r := by
  unfold stmtPath run_stmt
  cases hE : I.evalE c (mkGlobals prelude) with
  | mk ws res =>
    cases res with
    | ok v =>
      exact ⟨Resp.success (if v = Value.vnone then "" else v.toStr) (outText ws) (errText ws),
        by simp [hE, Except.map]⟩
    | error e =>
      have hb : e.isBase = false := hc.1 c (mkGlobals prelude) e (by rw [hE])
      exact ⟨Resp.failure e.msg (outText ws) (errText ws ++ e.trace),
        by simp [hE, Except.map, catchExc, hb]⟩

theorem blockPath_ok (I : Interp) (prelude : NS) (hc : catchableInterp I) (c : String) :
    ∃ r, blockPath I prelude c = Except.ok r := by
  unfold blockPath run_block
  cases hE : I.execS c (mkGlobals prelude) with
  | mk ws res =>
    cases res with
    | ok ns2 =>
      exact ⟨Resp.success (outText ws) "" (errText ws), by simp [hE, Except.map]⟩
    | error e =>
      have hb : e.isBase = false := hc.2 c (mkGlobals prelude) e (by rw [hE])
      exact ⟨Resp.failure e.msg "" e.trace,
        by simp [hE, Except.map, catchExc, hb, String.empty_append]⟩

theorem handle_request_ok (I : Interp) (prelude : NS) (hc : catchableInterp I) (req : JValue) :
    ∃ r, handle_request I prelude req = Except.ok r := by
  unfold handle_request
  split
  · rename_i e heq
    exact ⟨_, catchExc_ok e "" "" (jget_error_isBase req "kind" e heq)⟩
  · rename_i kind heq
    split
    · rename_i e heq2
      exact ⟨_, catchExc_ok e "" "" (jget_error_isBase req "code" e heq2)⟩
    · rename_i code heq2
      split
      · split
        · split
          · exact stmtPath_ok I prelude hc _
          · exact blockPath_ok I prelude hc _
        · exact ⟨_, catchExc_ok _ "" "" rfl⟩
      · exact ⟨_, catchExc_ok _ "" "" rfl⟩

theorem runLines_blank (I : Interp) (dec : Decoder) (prelude : NS) (raw : String)
    (rest : List String) (h : pyStrip raw = "") :
    runLines I dec prelude (raw :: rest) = runLines I dec prelude rest := by
  simp [runLines, h]

theorem runLines_badjson (I : Interp) (dec : Decoder) (prelude : NS) (raw : String)
    (rest : List String) (e : JsonErr) (h1 : pyStrip raw ≠ "")
    (h2 : dec (pyStrip raw) = Except.error e) :
    runLines I dec prelude (raw :: rest)
      = (jsonErrResp e :: (runLines I dec prelude rest).1, (runLines I dec prelude rest).2) := by
  simp [runLines, h1, h2]

theorem runLines_handled (I : Interp) (dec : Decoder) (prelude : NS) (raw : String)
    (rest : List String) (req : JValue) (r : Resp) (h1 : pyStrip raw ≠ "")
    (h2 : dec (pyStrip raw) = Except.ok req) (h3 : handle_request I prelude req = Except.ok r) :
    runLines I dec prelude (raw :: rest)
      = (r :: (runLines I dec prelude rest).1, (runLines I dec prelude rest).2) := by
  simp [runLines, h1, h2, h3]

/-- Claim C1 counterexample: a snippet that re-raises a signal-style
exception (SystemExit, outside the Exception branch) escapes handle_request
uncaught, and the handle_request call in the protocol loop sits outside any
try: the loop terminates with no response for that line and the following
line unprocessed, so the worker process does crash/exit due to snippet
content. -/
theorem snippet_base_raise_kills_worker :
    handle_request demoInterp [] (mkReq "block" "exitnow") = Except.error sysExitExc
    ∧ runLines demoInterp demoDec [] ["EXITREQ", "GOODREQ"] = ([], some sysExitExc) :=
  ⟨rfl, rfl⟩

/-- Claim C1 (amended): for snippets whose failures all lie in the
catchable Exception category, nothing raised by a snippet or by decoding
escapes the request handler or the protocol loop: the loop never crashes,
and every non-blank input line yields exactly one response.  (A raisable
outside the Exception category, such as a re-raised SystemExit or
KeyboardInterrupt, escapes and terminates the worker.) -/
theorem worker_survives_catchable (I : Interp) (dec : Decoder) (prelude : NS)
    (hc : catchableInterp I) (lines : List String) :
    (runLines I dec prelude lines).2 = none
    ∧ (runLines I dec prelude lines).1.length
        = lines.countP (fun l => pyStrip l != "") := by
  induction lines with
  | nil => exact ⟨rfl, rfl⟩
  | cons raw rest ih =>
    by_cases hb : pyStrip raw = ""
    · rw [runLines_blank I dec prelude raw rest hb]
      refine ⟨ih.1, ?_⟩
      simp [List.countP_cons, ih.2, hb]
    · cases hd : dec (pyStrip raw) with
      | error e =>
        rw [runLines_badjson I dec prelude raw rest e hb hd]
        refine ⟨ih.1, ?_⟩
        simp [List.countP_cons, ih.2, bne, hb]
      | ok req =>
        obtain ⟨r, hr⟩ := handle_request_ok I prelude hc req
        rw [runLines_handled I dec prelude raw rest req r hb hd hr]
        refine ⟨ih.1, ?_⟩
        simp [List.countP_cons, ih.2, bne, hb]

/-- Witness for the amended C1: a concrete catchable interpreter processing
a request line and a blank line survives and answers once. -/
theorem worker_survives_catchable_witness :
    (runLines idleInterp demoDec [] ["GOODREQ", "  "]).2 = none
    ∧ (runLines idleInterp demoDec [] ["GOODREQ", "  "]).1.length
        = ["GOODREQ", "  "].countP (fun l => pyStrip l != "") :=
  worker_survives_catchable idleInterp demoDec []
    ⟨fun c ns e h => by simp [idleInterp] at h,
     fun c ns e h => by simp [idleInterp] at h⟩
    ["GOODREQ", "  "]

/-- Claim C8 counterexample: a line that decodes successfully can produce
zero response lines: when the decoded request makes the snippet raise a
SystemExit-style exception, the loop dies before writing any response. -/
theorem decoded_line_without_response :
    demoDec (pyStrip "EXITREQ") = Except.ok (mkReq "block" "exitnow")
    ∧ (runLines demoInterp demoDec [] ["EXITREQ"]).1 = [] :=
  ⟨rfl, rfl⟩

/-- Claim C8 (amended): a blank or whitespace-only line is skipped with no
response; a line that fails to decode yields exactly one synthetic failure
response (err prefixed with the fixed text and the decode detail, empty
stdout, the synthetic trace as stderr) and the loop continues with the
remaining lines; a line that decodes successfully and whose handling
returns (rather than raising an uncatchable exception) yields exactly one
response line, after which the loop continues. -/
theorem protocol_loop_framing (I : Interp) (dec : Decoder) (prelude : NS)
    (raw : String) (rest : List String) :
    (pyStrip raw = "" → runLines I dec prelude (raw :: rest) = runLines I dec prelude rest)
    ∧ (∀ e, pyStrip raw ≠ "" → dec (pyStrip raw) = Except.error e →
        runLines I dec prelude (raw :: rest)
          = (Resp.failure ("invalid JSON request: " ++ e.msg) "" e.trace
              :: (runLines I dec prelude rest).1, (runLines I dec prelude rest).2))
    ∧ (∀ req r, pyStrip raw ≠ "" → dec (pyStrip raw) = Except.ok req →
        handle_request I prelude req = Except.ok r →
        runLines I dec prelude (raw :: rest)
          = (r :: (runLines I dec prelude rest).1, (runLines I dec prelude rest).2)) :=
  ⟨runLines_blank I dec prelude raw rest,
   fun e h1 h2 => runLines_badjson I dec prelude raw rest e h1 h2,
   fun req r h1 h2 h3 => runLines_handled I dec prelude raw rest req r h1 h2 h3⟩

/-- Witness for the amended C8 at concrete lines: a whitespace line is
skipped, a malformed line yields one synthetic failure response, a decoded
line whose handling returns yields one success response. -/
theorem protocol_loop_framing_witness :
    runLines demoInterp demoDec [] ["   ", "GOODREQ"]
      = runLines demoInterp demoDec [] ["GOODREQ"]
    ∧ runLines demoInterp demoDec [] ["%%%"]
      = (Resp.failure ("invalid JSON request: " ++ "Expecting value: line 1 column 1 (char 0)") ""
          (mkTrace "json.decoder.JSONDecodeError" "Expecting value: line 1 column 1 (char 0)")
          :: (runLines demoInterp demoDec [] []).1, (runLines demoInterp demoDec [] []).2)
    ∧ runLines demoInterp demoDec [] ["GOODREQ"]
      = (Resp.success "a\nb\n" "" "" :: (runLines demoInterp demoDec [] []).1,
         (runLines demoInterp demoDec [] []).2) :=
  ⟨(protocol_loop_framing demoInterp demoDec [] "   " ["GOODREQ"]).1 rfl,
   (protocol_loop_framing demoInterp demoDec [] "%%%" []).2.1
     ⟨"Expecting value: line 1 column 1 (char 0)",
       mkTrace "json.decoder.JSONDecodeError" "Expecting value: line 1 column 1 (char 0)"⟩
     (by decide) rfl,
   (protocol_loop_framing demoInterp demoDec [] "GOODREQ" []).2.2
     (mkReq "block" "printab") (Resp.success "a\nb\n" "" "") (by decide) rfl rfl⟩
